import Mathlib

/-!
Verification development for the SAU release-catalog service.

The definitions below are a shallow embedding of the Go handlers under
`src/server/handler` (`create/upload.go`, `catalog/get.go`, `delete/delete.go`)
and of the `utils` helpers embedded in `upload.go`.  External collaborators
(the mongod repository layer, the redis client, the S3 SDK) are modelled as
explicit inputs; repository operations that are absent from the sources are
reconstructed from the specification and marked `Modelled from the spec:` in
their doc comments.
-/

namespace SAU

/-- One downloadable file of a release (`model.SpecificApp` artifact entry):
platform, arch, package extension (leading dot) and the object-store URL. -/
structure Artifact where
  platform : String
  arch : String
  package : String
  link : String
  deriving DecidableEq, Repr

/-- One changelog entry of a release. -/
structure ChangelogEntry where
  version : String
  changes : String
  date : String
  deriving DecidableEq, Repr

/-- A release record (`model.SpecificApp`): the `(app_name, version, channel)`
bundle with its publication flags, artifacts and changelog. -/
structure Release where
  id : String
  appName : String
  version : String
  channel : String
  published : Bool
  critical : Bool
  artifacts : List Artifact
  changelog : List ChangelogEntry
  deriving DecidableEq, Repr

/-- A JSON value as produced by the gin handlers (`gin.H` entries); `null` is
what a nil Go slice serialises to, `releases` a serialised release list. -/
inductive JVal where
  | s (v : String)
  | b (v : Bool)
  | n (v : Nat)
  | null
  | releases (rs : List Release)
  deriving DecidableEq, Repr

/-- An HTTP reply: status code plus the JSON object body (key/value list,
in emission order). -/
structure HttpResponse where
  status : Nat
  body : List (String × JVal)
  deriving DecidableEq, Repr

/-- Go `strings.TrimPrefix(s, ".")`: drop one leading dot when present. -/
def trimDot (s : String) : String :=
  match s.toList with
  | '.' :: rest => String.mk rest
  | _ => s

/-- Split a character list on `'.'` separators (the `strings.Split`/`splitOn`
behaviour: empty tokens are kept). -/
def splitDotAux (acc : List Char) : List Char → List (List Char)
  | [] => [acc.reverse]
  | c :: cs =>
    if c == '.' then acc.reverse :: splitDotAux [] cs
    else splitDotAux (c :: acc) cs

/-- Decimal value of a token; `none` when empty or containing a non-digit. -/
def digitsVal (acc : Option Nat) : List Char → Option Nat
  | [] => acc
  | c :: cs =>
    if c.isDigit then digitsVal (some ((acc.getD 0) * 10 + (c.toNat - 48))) cs
    else none

/-- Parse a four-component version `a.b.c.d` (spec section 4.1): split on
dots, each token a decimal natural; anything else is ill-formed. -/
def parseVersion (s : String) : Option (Nat × Nat × Nat × Nat) :=
  match (splitDotAux [] s.toList).map (fun t => digitsVal none t) with
  | [some a, some b, some c, some d] => some (a, b, c, d)
  | _ => none

/-- Lexicographic comparison of parsed versions (spec section 4.1). -/
def versionLt (v w : Nat × Nat × Nat × Nat) : Bool :=
  decide (v.1 < w.1) ||
    (v.1 == w.1 && (decide (v.2.1 < w.2.1) ||
      (v.2.1 == w.2.1 && (decide (v.2.2.1 < w.2.2.1) ||
        (v.2.2.1 == w.2.2.1 && decide (v.2.2.2 < w.2.2.2))))))

/-- String-level version comparison: parse both sides, compare; unparseable
versions never compare smaller. -/
def versionLtStr (a b : String) : Bool :=
  match parseVersion a, parseVersion b with
  | some va, some vb => versionLt va vb
  | _, _ => false

/-- String-level version equality through the four-component parse. -/
def versionEqStr (a b : String) : Bool :=
  match parseVersion a, parseVersion b with
  | some va, some vb => va == vb
  | _, _ => false

/-- What `repository.CheckLatestVersion` hands back to the handler: whether a
newer published release was found, and the artifacts of the winning release. -/
structure CheckResult where
  found : Bool
  artifacts : List Artifact
  deriving DecidableEq, Repr

/-- Candidate set for a check/latest query (spec section 4.5, rule 1): releases
for the app and channel, published, with at least one artifact matching
the requested platform and arch. -/
def candidates (releases : List Release) (app channel platform arch : String) :
    List Release :=
  releases.filter fun r =>
    r.appName == app && r.channel == channel && r.published &&
      r.artifacts.any (fun a => a.platform == platform && a.arch == arch)

/-- Of two releases, the one with the larger version (first argument kept on
ties or unparseable versions). -/
def pickLater (r s : Release) : Release :=
  if versionLtStr r.version s.version then s else r

/-- The release with the largest version in a list. -/
def maxRelease : List Release → Option Release
  | [] => none
  | r :: rs =>
    match maxRelease rs with
    | none => some r
    | some s => some (pickLater r s)

/-- Modelled from the spec: `repository.CheckLatestVersion` (mongod layer,
not under src/).  Spec section 4.5 "Check query": ill-formed client version is
`BadVersion`; no candidate yields a not-found result; client newer than the
latest candidate is `BadVersion` with the message asserted by the repository
tests; equal yields no update with the winner's matching artifacts; older
yields an update with those artifacts. -/
def CheckLatestVersion (releases : List Release)
    (app version channel platform arch : String) : Except String CheckResult :=
  match parseVersion version with
  | none => .error ("invalid version format: " ++ version)
  | some _ =>
    match maxRelease (candidates releases app channel platform arch) with
    | none => .ok ⟨false, []⟩
    | some latest =>
      let arts := latest.artifacts.filter fun a =>
        a.platform == platform && a.arch == arch
      if versionLtStr latest.version version then
        .error ("requested version " ++ version ++
          " is newer than the latest version available")
      else if versionEqStr version latest.version then
        .ok ⟨false, arts⟩
      else
        .ok ⟨true, arts⟩

/-- The `/checkVersion` handler `FindLatestVersion`
(src/server/handler/create/upload.go lines 193-232): validation failure is
400; a repository error is 500 with the error text; a not-found result is 200
with `update_available:false` and an error string; a found result is 200 with
`update_available:true` plus one `update_url_<ext>` entry per artifact with a
non-empty package and link. -/
def FindLatestVersion (validation : Except String Unit)
    (check : Except String CheckResult) : HttpResponse :=
  match validation with
  | .error e => ⟨400, [("error", .s e)]⟩
  | .ok _ =>
    match check with
    | .error e => ⟨500, [("error", .s e)]⟩
    | .ok r =>
      if !r.found then
        if r.artifacts.length == 0 then
          ⟨200, [("update_available", .b false), ("error", .s "Not found")]⟩
        else
          ⟨200, [("update_available", .b false), ("error", .s "Not found")]⟩
      else
        ⟨200, ("update_available", .b true) ::
          ((r.artifacts.filter fun a => a.package != "" && a.link != "").map
            fun a => ("update_url_" ++ trimDot a.package, JVal.s a.link))⟩

/-- Go `strings.TrimPrefix(link, endpoint)` as used in `DeleteApp`. -/
def trimLeading (pre s : String) : String :=
  if pre.toList.isPrefixOf s.toList then String.mk (s.toList.drop pre.toList.length)
  else s

/-- `utils.IsValidInputAppName` (src upload.go lines 267-271): the Go regex
`^[a-zA-Z0-9]+$`. -/
def IsValidInputAppName (input : String) : Bool :=
  !input.toList.isEmpty && input.toList.all fun c => c.isAlpha || c.isDigit

/-- `utils.IsValidInputVersion` (src upload.go lines 272-276): the Go regex
`^[0-9.-]+$`. -/
def IsValidInputVersion (input : String) : Bool :=
  !input.toList.isEmpty && input.toList.all fun c => c.isDigit || c == '.' || c == '-'

/-- The outputs of `utils.UploadToS3` (src upload.go lines 293-329): the
extension taken from the first dot of the uploaded filename, the renamed
object, the object-store key and the returned URL. -/
structure S3Upload where
  extension : String
  newFileName : String
  s3Key : String
  link : String
  deriving DecidableEq, Repr

/-- Go `strings.Index(s, ".")` for the single-character needle: the index of
the first `'.'`, or `none` for Go's `-1`. -/
def indexOfDot : List Char → Option Nat
  | [] => none
  | c :: cs => if c == '.' then some 0 else (indexOfDot cs).map (· + 1)

/-- The extension computation of `utils.UploadToS3` (src upload.go lines
297-303): `strings.Index(baseFileName, ".")`, then the slice from that index;
no dot leaves the extension empty. -/
def uploadExt (filename : String) : String :=
  match indexOfDot filename.toList with
  | some i => String.mk (filename.toList.drop i)
  | none => ""

/-- `utils.UploadToS3` (src upload.go lines 293-329): the new file name is
`<appName>-<version><ext>`, the object key is `<appName>/<newFileName>` and
the link is `<S3_ENDPOINT>/<appName>/<newFileName>`. -/
def UploadToS3 (appName version filename endpoint : String) : S3Upload :=
  let extension := uploadExt filename
  let newFileName := appName ++ "-" ++ version ++ extension
  ⟨extension, newFileName, appName ++ "/" ++ newFileName,
    endpoint ++ "/" ++ appName ++ "/" ++ newFileName⟩

/-- Fuelled redis glob matcher: `*` matches any (possibly empty) character
sequence, every other character is literal.  Fuel only bounds the recursion;
`globMatch` below always supplies enough. -/
def globMatchFuel : Nat → List Char → List Char → Bool
  | 0, _, _ => false
  | _ + 1, [], s => s.isEmpty
  | fuel + 1, p :: ps, [] => p == '*' && globMatchFuel fuel ps []
  | fuel + 1, p :: ps, c :: cs =>
    if p == '*' then
      globMatchFuel fuel ps (c :: cs) || globMatchFuel fuel (p :: ps) cs
    else
      p == c && globMatchFuel fuel ps cs

/-- Redis `KEYS` glob matching of a pattern against a key. -/
def globMatch (pat key : String) : Bool :=
  globMatchFuel (pat.toList.length + key.toList.length + 1) pat.toList key.toList

/-- The invalidation pattern built by `InvalidateCache` (src upload.go
line 25): `app_name=<a>&version=*&channel=<c>&platform=*&arch=*`. -/
def cachePattern (appName channel : String) : String :=
  "app_name=" ++ appName ++ "&version=*&channel=" ++ channel ++
    "&platform=*&arch=*"

/-- `create.InvalidateCache` (src upload.go lines 20-47) acting on the cache
key set: a failing `KEYS` call leaves the cache untouched (the handler only
logs the returned error); otherwise every key matching the pattern is
deleted, except keys whose individual `DEL` fails (also only logged). -/
def InvalidateCache (appName channel : String) (cache : List String)
    (listErr : Bool) (delFails : String → Bool) : List String :=
  if listErr then cache
  else cache.filter fun k =>
    !(globMatch (cachePattern appName channel) k) || delFails k

/-- The taxonomy dimensions existing in the metadata store. -/
structure Taxonomy where
  apps : List String
  channels : List String
  platforms : List String
  archs : List String
  deriving DecidableEq, Repr

/-- The raw form parameters of an upload request, before validation. -/
structure RawParams where
  appName : Option String
  version : Option String
  channel : Option String
  platform : Option String
  arch : Option String
  publish : Bool
  critical : Bool
  changelog : String
  deriving DecidableEq, Repr

/-- The validated parameter map handed to the downstream components. -/
structure UploadParams where
  appName : String
  version : String
  channel : String
  platform : String
  arch : String
  publish : Bool
  critical : Bool
  changelog : String
  deriving DecidableEq, Repr

/-- Modelled from the spec: `utils.ValidateParams` (not under src/), spec
section 4.4 plus invariant 3 and scenario S5.  `app_name` must be present,
alphanumeric and an existing App; `version` present and surface-valid; for
each dimension with at least one record the parameter is required (with the
error bodies asserted by the repository tests) and, when given, must exist. -/
def ValidateParams (tax : Taxonomy) (p : RawParams) :
    Except String UploadParams :=
  match p.appName with
  | none => .error "app_name is required"
  | some app =>
    if !IsValidInputAppName app then .error "invalid app_name" else
    if !tax.apps.contains app then .error "app does not exist" else
    match p.version with
    | none => .error "version is required"
    | some v =>
      if !IsValidInputVersion v then .error "invalid version" else
      if !tax.channels.isEmpty && p.channel.isNone then
        .error "you have a created channels, setting channel is required" else
      if (match p.channel with
          | some ch => !tax.channels.contains ch
          | none => false) then .error "channel does not exist" else
      if !tax.platforms.isEmpty && p.platform.isNone then
        .error "you have a created platforms, setting platform is required" else
      if (match p.platform with
          | some pf => !tax.platforms.contains pf
          | none => false) then .error "platform does not exist" else
      if !tax.archs.isEmpty && p.arch.isNone then
        .error "you have a created archs, setting arch is required" else
      if (match p.arch with
          | some ar => !tax.archs.contains ar
          | none => false) then .error "arch does not exist" else
      .ok ⟨app, v, (p.channel.getD ""), (p.platform.getD ""), (p.arch.getD ""),
        p.publish, p.critical, p.changelog⟩

/-- Release lookup by the identifying tuple `(app_name, version, channel)`. -/
def findRelease (store : List Release) (app version channel : String) :
    Option Release :=
  store.find? fun r =>
    r.appName == app && r.version == version && r.channel == channel

/-- Modelled from the spec: `repository.Upload` (mongod layer, not under
src/), spec section 4.3 insert-or-extend with the duplicate error body
asserted by the repository tests.  No release for the tuple: create one with
a single artifact and a changelog entry.  Existing release: a duplicate
`(platform, arch, ext)` fails with `DuplicateArtifact` and writes nothing;
otherwise the artifact is appended and the changelog extended iff no entry
for the version exists yet. -/
def Upload (params : UploadParams) (link ext : String) (store : List Release)
    (newId today : String) : Except String (List Release × String) :=
  match findRelease store params.appName params.version params.channel with
  | none =>
    .ok (store ++ [⟨newId, params.appName, params.version, params.channel,
      params.publish, params.critical,
      [⟨params.platform, params.arch, ext, link⟩],
      [⟨params.version, params.changelog, today⟩]⟩], newId)
  | some r =>
    if r.artifacts.any (fun a =>
        a.platform == params.platform && a.arch == params.arch &&
          a.package == ext) then
      .error "app with this name, version, and extension already exists"
    else
      .ok (store.map (fun s => if s.id == r.id then
        { r with
          artifacts := r.artifacts ++ [⟨params.platform, params.arch, ext, link⟩],
          changelog :=
            if r.changelog.any (fun c => c.version == params.version) then
              r.changelog
            else r.changelog ++ [⟨params.version, params.changelog, today⟩] }
        else s), r.id)

/-- The first loop of `UploadApp` (src upload.go lines 70-79): call
`UploadToS3` for each file part, aborting on the first failure.  The blob
store is abstracted as a function from filename to `(link, ext)` or failure. -/
def collectUploads (s3 : String → Except Unit (String × String)) :
    List String → Except Unit (List (String × String))
  | [] => .ok []
  | f :: fs =>
    match s3 f with
    | .error e => .error e
    | .ok le =>
      match collectUploads s3 fs with
      | .error e => .error e
      | .ok rest => .ok (le :: rest)

/-- The second loop of `UploadApp` (src upload.go lines 80-89): sequential
`repository.Upload` calls; the first error aborts but earlier writes remain. -/
def uploadAll (params : UploadParams) (store : List Release)
    (newId today : String) :
    List (String × String) → List Release × Except String (List String)
  | [] => (store, .ok [])
  | (link, ext) :: rest =>
    match Upload params link ext store newId today with
    | .error e => (store, .error e)
    | .ok (store', id) =>
      match uploadAll params store' newId today rest with
      | (store'', .error e) => (store'', .error e)
      | (store'', .ok ids) => (store'', .ok (id :: ids))

/-- The state of `UploadApp` after validation, the blob uploads and the
metadata writes: an early error response when one occurred, the store and
the collected result ids. -/
structure Phase1Out where
  earlyResp : Option HttpResponse
  store : List Release
  results : List String
  deriving Repr

/-- `UploadApp` up to and including the metadata loop (src upload.go lines
52-89): validation failure is 400; a missing multipart form is 400; a blob
failure is 500 with the fixed S3 body; a repository error is 500 with the
error text, keeping the store writes made before it. -/
def uploadPhase1 (validate : Except String UploadParams)
    (form : Option (List String))
    (s3 : String → Except Unit (String × String)) (store : List Release)
    (newId today : String) : Phase1Out :=
  match validate with
  | .error e => ⟨some ⟨400, [("error", .s e)]⟩, store, []⟩
  | .ok params =>
    match form with
    | none =>
      ⟨some ⟨400, [("error", .s "multipart form data is required")]⟩, store, []⟩
    | some files =>
      match collectUploads s3 files with
      | .error _ =>
        ⟨some ⟨500, [("error", .s "failed to upload file to S3")]⟩, store, []⟩
      | .ok linkExts =>
        match uploadAll params store newId today linkExts with
        | (store', .error e) =>
          ⟨some ⟨500, [("error", .s e)]⟩, store', []⟩
        | (store', .ok ids) => ⟨none, store', ids⟩

/-- The full result of one `UploadApp` call: the HTTP reply plus the final
metadata store and cache key set. -/
structure UploadOutcome where
  response : HttpResponse
  store : List Release
  cache : List String
  deriving Repr

/-- `create.UploadApp` (src upload.go lines 49-134).  After phase 1, when no
early return happened, the cache is invalidated iff performance mode is on, a
redis client exists and `publish` is true (lines 91-102, errors only logged);
only then is the empty-results 500 emitted (lines 104-107); a non-empty
result list answers 200 with `{"uploadResult": <id of the first result>}`
(line 110). -/
def UploadApp (validate : Except String UploadParams)
    (form : Option (List String))
    (s3 : String → Except Unit (String × String)) (store : List Release)
    (performanceMode hasRdb : Bool) (cache : List String)
    (listErr : Bool) (delFails : String → Bool)
    (newId today : String) : UploadOutcome :=
  let p1 := uploadPhase1 validate form s3 store newId today
  match p1.earlyResp with
  | some r => ⟨r, p1.store, cache⟩
  | none =>
    let publish := match validate with | .ok p => p.publish | .error _ => false
    let appName := match validate with | .ok p => p.appName | .error _ => ""
    let channel := match validate with | .ok p => p.channel | .error _ => ""
    let cache' :=
      if performanceMode && hasRdb && publish then
        InvalidateCache appName channel cache listErr delFails
      else cache
    match p1.results with
    | [] =>
      ⟨⟨500, [("error", .s "no results found. Please check your files.")]⟩,
        p1.store, cache'⟩
    | id :: _ => ⟨⟨200, [("uploadResult", .s id)]⟩, p1.store, cache'⟩

/-- `catalog.GetAppByName` (src get.go lines 14-31): a repository error is
only logged, the app list stays nil, and the handler answers HTTP 200 with
`{"apps": ...}` in every case. -/
def GetAppByName (result : Except String (List Release)) : HttpResponse :=
  match result with
  | .error _ => ⟨200, [("apps", JVal.null)]⟩
  | .ok apps => ⟨200, [("apps", JVal.releases apps)]⟩

/-- The result of `delete.DeleteApp`: the HTTP reply plus the object keys
passed to `DeleteFromS3`. -/
structure DeleteOutcome where
  response : HttpResponse
  s3Deletions : List String
  deriving DecidableEq, Repr

/-- `delete.DeleteApp` (src delete.go lines 19-42): an unparseable id is 400;
a repository error is only logged and the handler continues with the returned
links and count, deleting each link (endpoint trimmed) from S3 and answering
HTTP 200 with `{"deleteAppResult.DeletedCount": <count>}`. -/
def DeleteApp (idParse : Except String String)
    (links : List String) (count : Nat) (repoErr : Option String)
    (endpoint : String) : DeleteOutcome :=
  match idParse with
  | .error e => ⟨⟨400, [("error", .s e)]⟩, []⟩
  | .ok _ =>
    match repoErr with
    | some _ => ⟨⟨200, [("deleteAppResult.DeletedCount", .n count)]⟩,
        links.map fun l => trimLeading endpoint l⟩
    | none => ⟨⟨200, [("deleteAppResult.DeletedCount", .n count)]⟩,
        links.map fun l => trimLeading endpoint l⟩

end SAU

namespace SAU

/-- If the latest candidate's version is smaller than `b`, `b` parses. -/
theorem versionLtStr_parses_right {a b : String} (h : versionLtStr a b = true) :
    parseVersion b ≠ none := by
  unfold versionLtStr at h
  cases ha : parseVersion a <;> cases hb : parseVersion b <;>
    simp [ha, hb] at h ⊢

/-- C1: on a check query whose client version is strictly newer than the
latest published version for the requested tuple, the handler answers
HTTP 500 with body `{"error":"requested version <v> is newer than the latest
version available"}` and the `update_available` field is omitted. -/
theorem checkVersion_newer_returns_500
    (releases : List Release) (app v channel platform arch : String)
    (latest : Release)
    (hmax : maxRelease (candidates releases app channel platform arch) =
      some latest)
    (hlt : versionLtStr latest.version v = true) :
    FindLatestVersion (.ok ()) (CheckLatestVersion releases app v channel platform arch) =
      ⟨500, [("error", .s ("requested version " ++ v ++
        " is newer than the latest version available"))]⟩ ∧
    "update_available" ∉
      (FindLatestVersion (.ok ())
        (CheckLatestVersion releases app v channel platform arch)).body.map
          Prod.fst := by
  have hparse : parseVersion v ≠ none := versionLtStr_parses_right hlt
  cases hv : parseVersion v with
  | none => exact absurd hv hparse
  | some pv =>
    constructor
    · unfold FindLatestVersion CheckLatestVersion
      simp [hv, hmax, hlt]
    · unfold FindLatestVersion CheckLatestVersion
      simp [hv, hmax, hlt]

/-- S1 scenario, first release: published 0.0.1.137 on nightly. -/
def s1Rel1 : Release :=
  ⟨"id1", "testapp", "0.0.1.137", "nightly", true, false,
    [⟨"universalPlatform", "universalArch", ".dmg", "ep/testapp-0.0.1.137.dmg"⟩,
     ⟨"universalPlatform", "universalArch", ".pkg", "ep/testapp-0.0.1.137.pkg"⟩],
    [⟨"0.0.1.137", "", "2024-01-01"⟩]⟩

/-- S1 scenario, second release: published 0.0.2.137 on nightly (the latest
published one). -/
def s1Rel2 : Release :=
  ⟨"id2", "testapp", "0.0.2.137", "nightly", true, true,
    [⟨"universalPlatform", "universalArch", ".dmg", "ep/testapp-0.0.2.137.dmg"⟩,
     ⟨"universalPlatform", "universalArch", ".pkg", "ep/testapp-0.0.2.137.pkg"⟩],
    [⟨"0.0.2.137", "### Changelog", "2024-01-01"⟩]⟩

/-- S1 scenario, third release: unpublished 0.0.3.137 on nightly. -/
def s1Rel3 : Release :=
  ⟨"id3", "testapp", "0.0.3.137", "nightly", false, false,
    [⟨"universalPlatform", "universalArch", ".dmg", "ep/testapp-0.0.3.137.dmg"⟩,
     ⟨"universalPlatform", "universalArch", ".pkg", "ep/testapp-0.0.3.137.pkg"⟩],
    [⟨"0.0.3.137", "", "2024-01-01"⟩]⟩

/-- Concrete store used to exercise the check and latest queries: the S1
scenario (three nightly releases, the third unpublished). -/
def s1Store : List Release := [s1Rel1, s1Rel2, s1Rel3]

/-- C1 witness: the S4 scenario.  Client version 0.0.3.137 is newer than the
latest published 0.0.2.137, and the handler answers the 500 error body. -/
theorem checkVersion_newer_returns_500_witness :
    FindLatestVersion (.ok ())
      (CheckLatestVersion s1Store "testapp" "0.0.3.137" "nightly"
        "universalPlatform" "universalArch") =
      ⟨500, [("error", .s ("requested version 0.0.3.137 is newer than the latest version available"))]⟩ ∧
    "update_available" ∉
      (FindLatestVersion (.ok ())
        (CheckLatestVersion s1Store "testapp" "0.0.3.137" "nightly"
          "universalPlatform" "universalArch")).body.map Prod.fst := by
  have h := checkVersion_newer_returns_500 s1Store "testapp" "0.0.3.137"
    "nightly" "universalPlatform" "universalArch" s1Rel2 (by decide) (by decide)
  exact ⟨h.1, h.2⟩

/-- C2: on a check query whose client version equals the latest published
version, the handler under src/ answers `update_available:false` with an
`error` field and returns no `update_url_<ext>` entry at all (the repository's
own test suite asserts the URLs are present, so the code diverges from its
tests here). -/
theorem checkVersion_equal_no_update_urls :
    FindLatestVersion (.ok ())
      (CheckLatestVersion s1Store "testapp" "0.0.2.137" "nightly"
        "universalPlatform" "universalArch") =
      ⟨200, [("update_available", .b false), ("error", .s "Not found")]⟩ ∧
    "update_url_dmg" ∉
      (FindLatestVersion (.ok ())
        (CheckLatestVersion s1Store "testapp" "0.0.2.137" "nightly"
          "universalPlatform" "universalArch")).body.map Prod.fst ∧
    "update_url_pkg" ∉
      (FindLatestVersion (.ok ())
        (CheckLatestVersion s1Store "testapp" "0.0.2.137" "nightly"
          "universalPlatform" "universalArch")).body.map Prod.fst := by
  refine ⟨by decide, by decide, by decide⟩

/-- C3: an upload whose `(app_name, version, channel, platform, arch, ext)`
tuple is already present in the store fails with the `DuplicateArtifact`
body over HTTP 500, and neither the store nor the cache changes. -/
theorem upload_duplicate_artifact_rejected
    (p : UploadParams) (store : List Release) (cache : List String)
    (f link ext : String) (r : Release)
    (pm hr listErr : Bool) (delFails : String → Bool) (newId today : String)
    (hfind : findRelease store p.appName p.version p.channel = some r)
    (hdup : r.artifacts.any (fun a =>
      a.platform == p.platform && a.arch == p.arch && a.package == ext) = true) :
    UploadApp (.ok p) (some [f]) (fun _ => .ok (link, ext)) store pm hr cache
      listErr delFails newId today =
      ⟨⟨500, [("error",
          .s "app with this name, version, and extension already exists")]⟩,
        store, cache⟩ := by
  simp [UploadApp, uploadPhase1, collectUploads, uploadAll, Upload, hfind, hdup]

/-- The duplicate-upload scenario S6: one release of testapp 0.0.1.137 on
nightly with a `.dmg` artifact already stored. -/
def s6Params : UploadParams :=
  ⟨"testapp", "0.0.1.137", "nightly", "universalPlatform", "universalArch",
    true, false, ""⟩

/-- The store after the first S6 upload. -/
def s6Store : List Release :=
  [⟨"id1", "testapp", "0.0.1.137", "nightly", true, false,
    [⟨"universalPlatform", "universalArch", ".dmg", "ep/testapp-0.0.1.137.dmg"⟩],
    [⟨"0.0.1.137", "", "2024-01-01"⟩]⟩]

/-- C3 witness: repeating the S6 upload of the `.dmg` artifact is refused
with the duplicate body and leaves the store and cache untouched. -/
theorem upload_duplicate_artifact_rejected_witness :
    UploadApp (.ok s6Params) (some ["testapp.dmg"])
      (fun _ => .ok ("ep/testapp-0.0.1.137.dmg", ".dmg")) s6Store true true
      ["k"] false (fun _ => false) "id2" "2024-01-02" =
      ⟨⟨500, [("error",
          .s "app with this name, version, and extension already exists")]⟩,
        s6Store, ["k"]⟩ :=
  upload_duplicate_artifact_rejected s6Params s6Store ["k"] "testapp.dmg"
    "ep/testapp-0.0.1.137.dmg" ".dmg"
    ⟨"id1", "testapp", "0.0.1.137", "nightly", true, false,
      [⟨"universalPlatform", "universalArch", ".dmg",
        "ep/testapp-0.0.1.137.dmg"⟩],
      [⟨"0.0.1.137", "", "2024-01-01"⟩]⟩
    true true false (fun _ => false) "id2" "2024-01-02" (by decide) (by decide)

/-- C5: the object-store key produced by `utils.UploadToS3` is
`<app_name>/<app_name>-<version><ext>` — it carries no channel, platform or
arch segments — so at the S1 input it differs from the
`<app_name>/<channel>/<platform>/<arch>/<app_name>-<version><ext>` key the
specification (and the repository's own tests) prescribe; the link is the
endpoint followed by the key. -/
theorem uploadToS3_key_lacks_dimensions :
    UploadToS3 "testapp" "0.0.2.137" "testapp.dmg" "ep" =
      ⟨".dmg", "testapp-0.0.2.137.dmg", "testapp/testapp-0.0.2.137.dmg",
        "ep/testapp/testapp-0.0.2.137.dmg"⟩ ∧
    (UploadToS3 "testapp" "0.0.2.137" "testapp.dmg" "ep").s3Key ≠
      "testapp/nightly/universalPlatform/universalArch/testapp-0.0.2.137.dmg" ∧
    (UploadToS3 "testapp" "0.0.2.137" "testapp.dmg" "ep").link =
      "ep" ++ "/" ++ (UploadToS3 "testapp" "0.0.2.137" "testapp.dmg" "ep").s3Key := by
  refine ⟨by decide, by decide, by decide⟩

/-- C7: a successful single-file upload answers 200 with the id under the
JSON key `"uploadResult"`, not `"uploadResult.Uploaded"` as the repository's
tests (and the spec's endpoint table) require. -/
theorem upload_response_key_mismatch :
    (UploadApp (.ok s6Params) (some ["testapp.dmg"])
        (fun _ => .ok ("L", ".dmg")) [] true true [] false (fun _ => false)
        "newid" "2024-01-01").response =
      ⟨200, [("uploadResult", .s "newid")]⟩ ∧
    "uploadResult.Uploaded" ∉
      (UploadApp (.ok s6Params) (some ["testapp.dmg"])
        (fun _ => .ok ("L", ".dmg")) [] true true [] false (fun _ => false)
        "newid" "2024-01-01").response.body.map Prod.fst := by
  refine ⟨by decide, by decide⟩

/-- C8 counterexample: a metadata-store error during `GetAppByName` or
`DeleteApp` does not surface as a non-2xx reply — both handlers answer
HTTP 200. -/
theorem store_errors_do_not_surface_cex :
    (GetAppByName (.error "metadata io failure")).status = 200 ∧
    (DeleteApp (.ok "6478aa") [] 0 (some "metadata io failure") "ep").response.status
      = 200 := by
  refine ⟨by decide, by decide⟩

/-- C8 amended: a repository error in `GetAppByName` or `DeleteApp` is only
logged; `GetAppByName` answers 200 with a nil app list, and `DeleteApp`
answers 200 with whatever deleted-count the repository returned. -/
theorem store_errors_logged_response_200
    (e id endpoint : String) (links : List String) (count : Nat) :
    GetAppByName (.error e) = ⟨200, [("apps", JVal.null)]⟩ ∧
    (DeleteApp (.ok id) links count (some e) endpoint).response =
      ⟨200, [("deleteAppResult.DeletedCount", .n count)]⟩ := by
  exact ⟨rfl, rfl⟩

/-- The extension as the claim words it: the substring of the filename
starting at its first `'.'` character, empty when there is no dot. -/
def extFromFirstDot (filename : String) : String :=
  String.mk (filename.toList.dropWhile fun c => c != '.')

/-- Dropping at the index of the first dot is dropping the dot-free run. -/
theorem indexOfDot_drop_eq_dropWhile (l : List Char) :
    (match indexOfDot l with
     | some i => l.drop i
     | none => ([] : List Char)) = l.dropWhile fun c => c != '.' := by
  induction l with
  | nil => rfl
  | cons c cs ih =>
    by_cases h : c = '.'
    · subst h
      simp [indexOfDot, List.dropWhile_cons]
    · have hb : (c == '.') = false := by simp [h]
      rw [List.dropWhile_cons]
      simp only [indexOfDot, hb, if_false, bne, Bool.not_false, if_true]
      cases hi : indexOfDot cs with
      | none => rw [hi] at ih; simpa using ih
      | some i =>
        rw [hi] at ih
        simpa using ih

/-- C9: the package extension used by `UploadToS3` is the substring of the
filename from its first dot — no dot gives an empty extension (the key ends
at `<app>-<version>`), and a multi-dot name keeps the full suffix. -/
theorem extension_first_dot :
    (∀ f : String, uploadExt f = extFromFirstDot f) ∧
    uploadExt "name" = "" ∧
    (UploadToS3 "app" "1.2.3.4" "name" "ep").s3Key = "app/app-1.2.3.4" ∧
    uploadExt "name.tar.gz" = ".tar.gz" ∧
    (UploadToS3 "app" "1.2.3.4" "name.tar.gz" "ep").s3Key =
      "app/app-1.2.3.4.tar.gz" := by
  refine ⟨?_, by decide, by decide, by decide, by decide⟩
  intro f
  unfold uploadExt extFromFirstDot
  have h := indexOfDot_drop_eq_dropWhile f.toList
  cases hi : indexOfDot f.toList with
  | none => rw [hi] at h; rw [← h]
  | some i => rw [hi] at h; rw [← h]

/-- C10 counterexample: a validated upload with zero `file` parts and
`publish=true` under performance mode still invalidates matching cache keys
before the 500 reply — the cache does change. -/
theorem empty_files_cache_invalidated_cex :
    (UploadApp (.ok s6Params) (some []) (fun _ => .ok ("L", ".dmg")) [] true
        true
        ["app_name=testapp&version=0.0.1.137&channel=nightly&platform=universalPlatform&arch=universalArch"]
        false (fun _ => false) "id" "2024-01-01").response =
      ⟨500, [("error", .s "no results found. Please check your files.")]⟩ ∧
    (UploadApp (.ok s6Params) (some []) (fun _ => .ok ("L", ".dmg")) [] true
        true
        ["app_name=testapp&version=0.0.1.137&channel=nightly&platform=universalPlatform&arch=universalArch"]
        false (fun _ => false) "id" "2024-01-01").cache = [] := by
  refine ⟨by decide, by decide⟩

/-- C10 amended: with zero `file` parts the handler writes no blob and no
metadata (the store is returned unchanged, whatever the blob store would
answer) and replies HTTP 500 with the no-results body, but cache invalidation
still runs first when performance mode is on, a redis client exists and
`publish` is true. -/
theorem empty_files_response
    (p : UploadParams) (s3 : String → Except Unit (String × String))
    (store : List Release) (pm hr listErr : Bool) (cache : List String)
    (delFails : String → Bool) (newId today : String) :
    UploadApp (.ok p) (some []) s3 store pm hr cache listErr delFails
        newId today =
      ⟨⟨500, [("error", .s "no results found. Please check your files.")]⟩,
        store,
        if pm && hr && p.publish then
          InvalidateCache p.appName p.channel cache listErr delFails
        else cache⟩ := by
  simp [UploadApp, uploadPhase1, collectUploads, uploadAll]

/-- C4: the dimension gate.  With at least one Channel record, an upload
without `channel` fails with HTTP 400 and the gate body before any blob or
metadata write (the blob store, metadata store and cache are untouched and
never consulted); the symmetric rule holds for Platform and Architecture;
and with no record in any dimension an upload omitting all three succeeds. -/
theorem upload_dimension_gate :
    (∀ (tax : Taxonomy) (p : RawParams) (app v : String)
        (form : Option (List String))
        (s3 : String → Except Unit (String × String)) (store : List Release)
        (pm hr listErr : Bool) (cache : List String) (delFails : String → Bool)
        (newId today : String),
      p.appName = some app → IsValidInputAppName app = true →
      tax.apps.contains app = true → p.version = some v →
      IsValidInputVersion v = true →
      tax.channels.isEmpty = false → p.channel = none →
      UploadApp (ValidateParams tax p) form s3 store pm hr cache listErr
          delFails newId today =
        ⟨⟨400, [("error",
            .s "you have a created channels, setting channel is required")]⟩,
          store, cache⟩) ∧
    (∀ (tax : Taxonomy) (p : RawParams) (app v ch : String)
        (form : Option (List String))
        (s3 : String → Except Unit (String × String)) (store : List Release)
        (pm hr listErr : Bool) (cache : List String) (delFails : String → Bool)
        (newId today : String),
      p.appName = some app → IsValidInputAppName app = true →
      tax.apps.contains app = true → p.version = some v →
      IsValidInputVersion v = true →
      p.channel = some ch → tax.channels.contains ch = true →
      tax.platforms.isEmpty = false → p.platform = none →
      UploadApp (ValidateParams tax p) form s3 store pm hr cache listErr
          delFails newId today =
        ⟨⟨400, [("error",
            .s "you have a created platforms, setting platform is required")]⟩,
          store, cache⟩) ∧
    (∀ (tax : Taxonomy) (p : RawParams) (app v ch pf : String)
        (form : Option (List String))
        (s3 : String → Except Unit (String × String)) (store : List Release)
        (pm hr listErr : Bool) (cache : List String) (delFails : String → Bool)
        (newId today : String),
      p.appName = some app → IsValidInputAppName app = true →
      tax.apps.contains app = true → p.version = some v →
      IsValidInputVersion v = true →
      p.channel = some ch → tax.channels.contains ch = true →
      p.platform = some pf → tax.platforms.contains pf = true →
      tax.archs.isEmpty = false → p.arch = none →
      UploadApp (ValidateParams tax p) form s3 store pm hr cache listErr
          delFails newId today =
        ⟨⟨400, [("error",
            .s "you have a created archs, setting arch is required")]⟩,
          store, cache⟩) ∧
    (∀ (tax : Taxonomy) (p : RawParams) (app v f link ext : String)
        (s3 : String → Except Unit (String × String))
        (pm hr listErr : Bool) (cache : List String) (delFails : String → Bool)
        (newId today : String),
      p.appName = some app → IsValidInputAppName app = true →
      tax.apps.contains app = true → p.version = some v →
      IsValidInputVersion v = true →
      tax.channels = [] → p.channel = none →
      tax.platforms = [] → p.platform = none →
      tax.archs = [] → p.arch = none →
      s3 f = .ok (link, ext) →
      (UploadApp (ValidateParams tax p) (some [f]) s3 [] pm hr cache listErr
          delFails newId today).response =
        ⟨200, [("uploadResult", .s newId)]⟩) := by
  refine ⟨?_, ?_, ?_, ?_⟩
  · intro tax p app v form s3 store pm hr listErr cache delFails newId today
      h1 h2 h3 h4 h5 h6 h7
    have h3' : app ∈ tax.apps := by simpa using h3
    have hv : ValidateParams tax p =
        .error "you have a created channels, setting channel is required" := by
      simp [ValidateParams, h1, h2, h3', h4, h5, h6, h7]
    simp [UploadApp, uploadPhase1, hv]
  · intro tax p app v ch form s3 store pm hr listErr cache delFails newId today
      h1 h2 h3 h4 h5 h6 h7 h8 h9
    have h3' : app ∈ tax.apps := by simpa using h3
    have h7' : ch ∈ tax.channels := by simpa using h7
    have hv : ValidateParams tax p =
        .error "you have a created platforms, setting platform is required" := by
      simp [ValidateParams, h1, h2, h3', h4, h5, h6, h7', h8, h9]
    simp [UploadApp, uploadPhase1, hv]
  · intro tax p app v ch pf form s3 store pm hr listErr cache delFails newId
      today h1 h2 h3 h4 h5 h6 h7 h8 h9 h10 h11
    have h3' : app ∈ tax.apps := by simpa using h3
    have h7' : ch ∈ tax.channels := by simpa using h7
    have h9' : pf ∈ tax.platforms := by simpa using h9
    have hv : ValidateParams tax p =
        .error "you have a created archs, setting arch is required" := by
      simp [ValidateParams, h1, h2, h3', h4, h5, h6, h7', h8, h9', h10, h11]
    simp [UploadApp, uploadPhase1, hv]
  · intro tax p app v f link ext s3 pm hr listErr cache delFails newId today
      h1 h2 h3 h4 h5 h6 h7 h8 h9 h10 h11 hs3
    have h3' : app ∈ tax.apps := by simpa using h3
    have hv : ValidateParams tax p =
        .ok ⟨app, v, "", "", "", p.publish, p.critical, p.changelog⟩ := by
      simp [ValidateParams, h1, h2, h3', h4, h5, h6, h7, h8, h9, h10, h11]
    simp [UploadApp, uploadPhase1, collectUploads, uploadAll, Upload,
      findRelease, hv, hs3]

/-- Raw parameters of the S5 scenario: `app_name` and `version` only. -/
def s5Raw : RawParams :=
  ⟨some "testapp", some "0.0.1.137", none, none, none, false, false, ""⟩

/-- C4 witness: the S5 scenario.  With one channel created, the bare
`{app_name, version}` upload is refused with the channel-gate body and
nothing is written; with an entirely empty taxonomy apart from the app, the
same upload succeeds. -/
theorem upload_dimension_gate_witness :
    UploadApp (ValidateParams ⟨["testapp"], ["nightly"], [], []⟩ s5Raw)
        (some ["testapp.dmg"]) (fun _ => .ok ("L", ".dmg")) [] true true ["k"]
        false (fun _ => false) "id" "d" =
      ⟨⟨400, [("error",
          .s "you have a created channels, setting channel is required")]⟩,
        [], ["k"]⟩ ∧
    UploadApp (ValidateParams
          ⟨["testapp"], ["nightly"], ["universalPlatform"], []⟩
          ⟨some "testapp", some "0.0.1.137", some "nightly", none, none, false,
            false, ""⟩)
        (some ["testapp.dmg"]) (fun _ => .ok ("L", ".dmg")) [] true true ["k"]
        false (fun _ => false) "id" "d" =
      ⟨⟨400, [("error",
          .s "you have a created platforms, setting platform is required")]⟩,
        [], ["k"]⟩ ∧
    UploadApp (ValidateParams
          ⟨["testapp"], ["nightly"], ["universalPlatform"], ["universalArch"]⟩
          ⟨some "testapp", some "0.0.1.137", some "nightly",
            some "universalPlatform", none, false, false, ""⟩)
        (some ["testapp.dmg"]) (fun _ => .ok ("L", ".dmg")) [] true true ["k"]
        false (fun _ => false) "id" "d" =
      ⟨⟨400, [("error",
          .s "you have a created archs, setting arch is required")]⟩,
        [], ["k"]⟩ ∧
    (UploadApp (ValidateParams ⟨["testapp"], [], [], []⟩ s5Raw)
        (some ["testapp.dmg"]) (fun _ => .ok ("L", ".dmg")) [] true true ["k"]
        false (fun _ => false) "id" "d").response =
      ⟨200, [("uploadResult", .s "id")]⟩ := by
  refine ⟨?_, ?_, ?_, ?_⟩
  · exact upload_dimension_gate.1 ⟨["testapp"], ["nightly"], [], []⟩ s5Raw
      "testapp" "0.0.1.137" (some ["testapp.dmg"]) (fun _ => .ok ("L", ".dmg"))
      [] true true false ["k"] (fun _ => false) "id" "d" (by decide) (by decide)
      (by decide) (by decide) (by decide) (by decide) (by decide)
  · exact upload_dimension_gate.2.1
      ⟨["testapp"], ["nightly"], ["universalPlatform"], []⟩
      ⟨some "testapp", some "0.0.1.137", some "nightly", none, none, false,
        false, ""⟩
      "testapp" "0.0.1.137" "nightly" (some ["testapp.dmg"])
      (fun _ => .ok ("L", ".dmg")) [] true true false ["k"] (fun _ => false)
      "id" "d" (by decide) (by decide) (by decide) (by decide) (by decide)
      (by decide) (by decide) (by decide) (by decide)
  · exact upload_dimension_gate.2.2.1
      ⟨["testapp"], ["nightly"], ["universalPlatform"], ["universalArch"]⟩
      ⟨some "testapp", some "0.0.1.137", some "nightly",
        some "universalPlatform", none, false, false, ""⟩
      "testapp" "0.0.1.137" "nightly" "universalPlatform"
      (some ["testapp.dmg"]) (fun _ => .ok ("L", ".dmg")) [] true true false
      ["k"] (fun _ => false) "id" "d" (by decide) (by decide) (by decide)
      (by decide) (by decide) (by decide) (by decide) (by decide) (by decide)
      (by decide) (by decide)
  · exact upload_dimension_gate.2.2.2 ⟨["testapp"], [], [], []⟩ s5Raw "testapp"
      "0.0.1.137" "testapp.dmg" "L" ".dmg" (fun _ => .ok ("L", ".dmg")) true
      true false ["k"] (fun _ => false) "id" "d" (by decide) (by decide)
      (by decide) (by decide) (by decide) (by decide) (by decide) (by decide)
      (by decide) (by decide) (by decide) rfl

/-- C6: cache invalidation on upload.  After a published upload under
performance mode with no listing or deletion failures, no key matching
`app_name=<a>&version=*&channel=<c>&platform=*&arch=*` survives in the
cache; an unpublished upload never touches the cache; and the HTTP reply is
the same whatever the cache contents and whatever listing or deletion
failures occur. -/
theorem upload_cache_invalidation :
    (∀ (p : UploadParams) (form : Option (List String))
        (s3 : String → Except Unit (String × String)) (store : List Release)
        (cache : List String) (newId today : String),
      (uploadPhase1 (.ok p) form s3 store newId today).earlyResp = none →
      p.publish = true →
      ((UploadApp (.ok p) form s3 store true true cache false (fun _ => false)
          newId today).cache.all fun k =>
        !(globMatch (cachePattern p.appName p.channel) k)) = true) ∧
    (∀ (p : UploadParams) (form : Option (List String))
        (s3 : String → Except Unit (String × String)) (store : List Release)
        (pm hr listErr : Bool) (cache : List String) (delFails : String → Bool)
        (newId today : String),
      p.publish = false →
      (UploadApp (.ok p) form s3 store pm hr cache listErr delFails newId
        today).cache = cache) ∧
    (∀ (validate : Except String UploadParams) (form : Option (List String))
        (s3 : String → Except Unit (String × String)) (store : List Release)
        (pm hr : Bool) (c1 c2 : List String) (le1 le2 : Bool)
        (df1 df2 : String → Bool) (newId today : String),
      (UploadApp validate form s3 store pm hr c1 le1 df1 newId today).response
        = (UploadApp validate form s3 store pm hr c2 le2 df2 newId
            today).response) := by
  refine ⟨?_, ?_, ?_⟩
  · intro p form s3 store cache newId today h1 h2
    simp only [UploadApp]
    rw [h1]
    simp only [h2, Bool.and_true, Bool.and_self, if_true]
    cases hres : (uploadPhase1 (.ok p) form s3 store newId today).results with
    | nil =>
      simp [InvalidateCache, List.all_eq_true, List.mem_filter]
    | cons id rest =>
      simp [InvalidateCache, List.all_eq_true, List.mem_filter]
  · intro p form s3 store pm hr listErr cache delFails newId today h
    simp only [UploadApp]
    cases hE : (uploadPhase1 (.ok p) form s3 store newId today).earlyResp with
    | some r => rfl
    | none =>
      simp only [h, Bool.and_false, if_false]
      cases hres : (uploadPhase1 (.ok p) form s3 store newId today).results
        <;> rfl
  · intro validate form s3 store pm hr c1 c2 le1 le2 df1 df2 newId today
    simp only [UploadApp]
    cases hE : (uploadPhase1 validate form s3 store newId today).earlyResp with
    | some r => rfl
    | none =>
      cases hres : (uploadPhase1 validate form s3 store newId today).results
        <;> rfl

/-- C6 witness: concrete runs of the three parts.  A published empty upload
deletes the matching key and keeps the rest; an unpublished one leaves the
cache alone; and a listing failure with a different cache yields the same
HTTP reply. -/
theorem upload_cache_invalidation_witness :
    ((UploadApp (.ok s6Params) (some []) (fun _ => .ok ("L", ".dmg")) [] true
        true
        ["app_name=testapp&version=0.0.2.137&channel=nightly&platform=x&arch=y",
         "other"]
        false (fun _ => false) "id" "d").cache.all fun k =>
      !(globMatch (cachePattern s6Params.appName s6Params.channel) k)) = true ∧
    (UploadApp
        (.ok ⟨"testapp", "0.0.1.137", "nightly", "x", "y", false, false, ""⟩)
        (some []) (fun _ => .ok ("L", ".dmg")) [] true true ["k1"] false
        (fun _ => false) "id" "d").cache = ["k1"] ∧
    (UploadApp (.ok s6Params) (some []) (fun _ => .ok ("L", ".dmg")) [] true
        true ["k1"] false (fun _ => false) "id" "d").response =
      (UploadApp (.ok s6Params) (some []) (fun _ => .ok ("L", ".dmg")) [] true
        true ["k2", "k3"] true (fun _ => true) "id" "d").response := by
  refine ⟨?_, ?_, ?_⟩
  · exact upload_cache_invalidation.1 s6Params (some [])
      (fun _ => .ok ("L", ".dmg")) []
      ["app_name=testapp&version=0.0.2.137&channel=nightly&platform=x&arch=y",
       "other"] "id" "d" (by decide) (by decide)
  · exact upload_cache_invalidation.2.1
      ⟨"testapp", "0.0.1.137", "nightly", "x", "y", false, false, ""⟩
      (some []) (fun _ => .ok ("L", ".dmg")) [] true true false ["k1"]
      (fun _ => false) "id" "d" (by decide)
  · exact upload_cache_invalidation.2.2 (.ok s6Params) (some [])
      (fun _ => .ok ("L", ".dmg")) [] true true ["k1"] ["k2", "k3"] false true
      (fun _ => false) (fun _ => true) "id" "d"

end SAU
